import Mathlib

/-!
Shallow embedding of the deterministic simulation core of the MonadRush
arcade game (scoring/combo state machine, RNG, physics helpers, spawn
manager, replay fold, state hashes), together with theorems settling the
frozen specification claims.

JavaScript numbers are modelled as exact rationals (`ℚ`); all values the
claims touch (scores, combos in steps of 0.5, lives, ms durations) are
exactly representable IEEE doubles on which the JS operations are exact,
so `ℚ` coincides with the source semantics there.  32-bit operations
(`x | 0`, `>>> 0`, `<<`, `&`) are made explicit via `toInt32`/`toUint32`.
-/

namespace MonadRush

/-- JS `ToInt32`: wrap an integer to the signed 32-bit range. -/
def toInt32 (n : ℤ) : ℤ :=
  let m := n % 4294967296
  if m < 2147483648 then m else m - 4294967296

/-- JS `x >>> 0`: wrap an integer to the unsigned 32-bit range. -/
def toUint32 (n : ℤ) : ℕ :=
  (n % 4294967296).toNat

/-! ## src/src/lib/rng.ts — XORShift32 and GameRNG -/

/-- One step of `XORShift32.next`: `x ^= x<<13; x ^= x>>>17; x ^= x<<5`,
each `<<` truncated to 32 bits (the JS ops act on the 32-bit pattern). -/
def xorshift32Next (s : ℕ) : ℕ :=
  let s1 := s ^^^ ((s <<< 13) % 4294967296)
  let s2 := s1 ^^^ (s1 >>> 17)
  s2 ^^^ ((s2 <<< 5) % 4294967296)

/-- `XORShift32` constructor: `seed === 0 ? 1 : seed >>> 0`. -/
def mkXorshiftState (seed : ℤ) : ℕ :=
  if seed = 0 then 1 else toUint32 seed

/-- `next()`: advances the state and returns it (value = new state). -/
def rngNext (s : ℕ) : ℕ × ℕ :=
  let v := xorshift32Next s
  (v, v)

/-- `nextFloat()`: `next() / 2^32`. -/
def rngNextFloat (s : ℕ) : ℚ × ℕ :=
  let vs := rngNext s
  ((vs.1 : ℚ) / 4294967296, vs.2)

/-- `nextInt(min, max)`: `Math.floor(nextFloat() * (max - min)) + min`. -/
def rngNextInt (lo hi : ℚ) (s : ℕ) : ℚ × ℕ :=
  let fs := rngNextFloat s
  ((⌊fs.1 * (hi - lo)⌋ : ℚ) + lo, fs.2)

/-- `nextFloatRange(min, max)`: `nextFloat() * (max - min) + min`. -/
def rngNextFloatRange (lo hi : ℚ) (s : ℕ) : ℚ × ℕ :=
  let fs := rngNextFloat s
  (fs.1 * (hi - lo) + lo, fs.2)

/-- `createSessionRNG` seed derivation: starting from the timestamp,
fold `seed = ((seed << 5) - seed + charCode) & 0xffffffff` over the
session id (the `&` yields a signed 32-bit value in JS). -/
def seedFromSession (sessionId : String) (timestamp : ℤ) : ℤ :=
  sessionId.data.foldl
    (fun seed c => toInt32 (toInt32 (toInt32 seed * 32) - seed + (c.toNat : ℤ)))
    timestamp

/-- `createSessionRNG(sessionId, timestamp)` as the initial RNG state. -/
def createSessionRNGState (sessionId : String) (timestamp : ℤ) : ℕ :=
  mkXorshiftState (seedFromSession sessionId timestamp)

/-- `GameRNG.objectType()` probability bands:
55% logo / 25% glitch / 5% gift / 15% bomb. -/
inductive ObjType where
  | logo | glitch | gift | bomb
deriving DecidableEq, Repr

def rngObjectType (s : ℕ) : ObjType × ℕ :=
  let rs := rngNextFloat s
  if rs.1 < 11/20 then (ObjType.logo, rs.2)
  else if rs.1 < 4/5 then (ObjType.glitch, rs.2)
  else if rs.1 < 17/20 then (ObjType.gift, rs.2)
  else (ObjType.bomb, rs.2)

/-- The nine magic card names, in the order of `GameRNG.magicCard()`. -/
def magicCards : List String :=
  ["time-freeze", "slow-motion", "golden-monad", "extra-time", "logo-highlight",
   "bomb-trap", "shrink-ray", "monad-swarm", "glitch-purge"]

/-- `GameRNG.magicCard()`: `choice(cards)` = `cards[nextInt(0, cards.length)]`. -/
def rngMagicCard (s : ℕ) : String × ℕ :=
  let is := rngNextInt 0 (magicCards.length : ℚ) s
  (magicCards.getD (⌊is.1⌋).toNat "time-freeze", is.2)

/-- `GameRNG.spawnX(screenWidth, objectWidth)`:
`nextInt(objectWidth/2, screenWidth - objectWidth/2)`. -/
def rngSpawnX (screenWidth objectWidth : ℚ) (s : ℕ) : ℚ × ℕ :=
  rngNextInt (objectWidth / 2) (screenWidth - objectWidth / 2) s

/-- `GameRNG.spawnDelay(baseDelay)`: `nextFloatRange(0.7*base, 1.3*base)`. -/
def rngSpawnDelay (baseDelay : ℚ) (s : ℕ) : ℚ × ℕ :=
  rngNextFloatRange (baseDelay * (7/10)) (baseDelay * (13/10)) s

/-- `GameRNG.fallSpeed(baseSpeed)`: `nextFloatRange(0.8*base, 1.2*base)`. -/
def rngFallSpeed (baseSpeed : ℚ) (s : ℕ) : ℚ × ℕ :=
  rngNextFloatRange (baseSpeed * (4/5)) (baseSpeed * (6/5)) s

/-! ## src/src/lib/game-logic.ts (embedded in game-contract-manager.ts)
— pure scoring/combo/effect state machine -/

structure ActiveEffect where
  type : String
  duration : ℚ
  value : Option ℚ
  startTime : ℚ
deriving DecidableEq, Repr

structure Difficulty where
  level : ℤ
  fallSpeed : ℚ
  spawnRate : ℚ
deriving DecidableEq, Repr

structure GameState where
  score : ℚ
  lives : ℚ
  timeLeft : ℚ
  combo : ℚ
  streak : ℚ
  gameStartTime : ℚ
  difficulty : Difficulty
  activeEffects : List ActiveEffect
deriving DecidableEq, Repr

inductive TapType where
  | logo | glitch | gift | bomb | miss
deriving DecidableEq, Repr

structure TapResult where
  type : TapType
  points : ℚ
  newCombo : ℚ
  newStreak : ℚ
  livesLost : ℚ
  effect : Option ActiveEffect
deriving DecidableEq, Repr

/-- `createInitialGameState()`; `Date.now()` is passed in as `now`. -/
def createInitialGameState (now : ℚ) : GameState :=
  { score := 0
    lives := 5
    timeLeft := 120
    combo := 1
    streak := 0
    gameStartTime := now
    difficulty := { level := 0, fallSpeed := 100, spawnRate := 3/2 }
    activeEffects := [] }

/-- `calculatePoints(combo, hasGoldenEffect)`. -/
def calculatePoints (combo : ℚ) (hasGoldenEffect : Bool) : ℚ :=
  let basePoints := 10 * combo
  if hasGoldenEffect then basePoints * 3 else basePoints

/-- `updateCombo(streak)`: `min(1.0 + floor(streak/5)*0.5, 5.0)`. -/
def updateCombo (streak : ℚ) : ℚ :=
  let comboLevel : ℤ := ⌊streak / 5⌋
  min (1 + (comboLevel : ℚ) * (1/2)) 5

/-- `createMagicCardEffect(cardType)`; `Date.now()` passed in as `now`. -/
def createMagicCardEffect (cardType : String) (now : ℚ) : ActiveEffect :=
  if cardType = "time-freeze" then
    { type := "time-freeze", duration := 5000, value := none, startTime := now }
  else if cardType = "slow-motion" then
    { type := "slow-motion", duration := 7000, value := some (1/2), startTime := now }
  else if cardType = "golden-monad" then
    { type := "golden-monad", duration := 0, value := none, startTime := now }
  else if cardType = "extra-time" then
    { type := "extra-time", duration := 0, value := some 10, startTime := now }
  else if cardType = "logo-highlight" then
    { type := "logo-highlight", duration := 5000, value := none, startTime := now }
  else if cardType = "bomb-trap" then
    { type := "bomb-trap", duration := 0, value := some (-20), startTime := now }
  else if cardType = "shrink-ray" then
    { type := "shrink-ray", duration := 4000, value := some (1/2), startTime := now }
  else if cardType = "monad-swarm" then
    { type := "monad-swarm", duration := 3000, value := none, startTime := now }
  else if cardType = "glitch-purge" then
    { type := "glitch-purge", duration := 0, value := some 5, startTime := now }
  else
    { type := "time-freeze", duration := 5000, value := none, startTime := now }

/-- `processTap(state, tapType, giftCardType?)`; `now` stands for the
`Date.now()` read inside `createMagicCardEffect` on the gift branch. -/
def processTap (state : GameState) (tapType : TapType)
    (giftCardType : Option String) (now : ℚ) : TapResult :=
  let hasGoldenEffect := state.activeEffects.any (fun e => e.type = "golden-monad")
  match tapType with
  | TapType.logo =>
      let newStreak := state.streak + 1
      let newCombo := updateCombo newStreak
      let points := calculatePoints state.combo hasGoldenEffect
      { type := TapType.logo, points := points, newCombo := newCombo,
        newStreak := newStreak, livesLost := 0, effect := none }
  | TapType.glitch =>
      { type := TapType.glitch, points := 0, newCombo := 1,
        newStreak := 0, livesLost := 0, effect := none }
  | TapType.gift =>
      let effect := createMagicCardEffect (giftCardType.getD "time-freeze") now
      { type := TapType.gift, points := 0, newCombo := state.combo,
        newStreak := state.streak, livesLost := 0, effect := some effect }
  | TapType.bomb =>
      { type := TapType.bomb, points := 0, newCombo := 1,
        newStreak := 0, livesLost := 1, effect := none }
  | TapType.miss =>
      { type := TapType.miss, points := 0, newCombo := 1,
        newStreak := 0, livesLost := 0, effect := none }

/-- `updateDifficulty(elapsedSeconds)`. -/
def updateDifficulty (elapsedSeconds : ℚ) : Difficulty :=
  let level : ℤ := ⌊elapsedSeconds / 30⌋
  { level := level
    fallSpeed := 100 * (13/10 : ℚ) ^ level
    spawnRate := (3/2) * (6/5 : ℚ) ^ level }

/-- `updateActiveEffects(effects, deltaTime)`: decrement durations
(clamped at 0) and keep an effect iff `duration > 0` or it is the
persistent `golden-monad`. -/
def updateActiveEffects (effects : List ActiveEffect) (deltaTime : ℚ) :
    List ActiveEffect :=
  (effects.map (fun e => { e with duration := max 0 (e.duration - deltaTime) })).filter
    (fun e => e.duration > 0 || e.type = "golden-monad")

/-- `applyTapResult(state, result)`: clamp score and lives, install the
result's combo/streak, then handle the optional effect — `extra-time`
adds to `timeLeft`, `bomb-trap` adjusts the score again, and only
effects with `duration > 0` are pushed onto `activeEffects` (replacing
any same-typed effect). -/
def applyTapResult (state : GameState) (result : TapResult) : GameState :=
  let base : GameState :=
    { state with
      score := max 0 (state.score + result.points)
      combo := result.newCombo
      streak := result.newStreak
      lives := max 0 (state.lives - result.livesLost) }
  match result.effect with
  | none => base
  | some eff =>
      if eff.type = "extra-time" then
        { base with timeLeft := base.timeLeft + eff.value.getD 0 }
      else if eff.type = "bomb-trap" then
        { base with score := max 0 (base.score + eff.value.getD 0) }
      else if eff.duration > 0 then
        { base with activeEffects :=
            (base.activeEffects.filter (fun e => e.type ≠ eff.type)) ++ [eff] }
      else
        base

/-- `updateGameState(state, deltaTime)`; `now` stands for `Date.now()`. -/
def updateGameState (state : GameState) (deltaTime now : ℚ) : GameState :=
  let elapsedSeconds := (now - state.gameStartTime) / 1000
  let isTimeFrozen := state.activeEffects.any (fun e => e.type = "time-freeze")
  { state with
    timeLeft := if isTimeFrozen then state.timeLeft
                else max 0 (state.timeLeft - deltaTime / 1000)
    difficulty := updateDifficulty elapsedSeconds
    activeEffects := updateActiveEffects state.activeEffects deltaTime }

/-- `isGameOver(state)`. -/
def isGameOver (state : GameState) : Bool :=
  state.timeLeft ≤ 0 || state.lives ≤ 0

/-! ## src/unnamed/part_005 — physics layer (AABB, game objects,
tap resolution, spawn manager) -/

structure Vector2 where
  x : ℚ
  y : ℚ
deriving DecidableEq, Repr

structure AABB where
  x : ℚ
  y : ℚ
  width : ℚ
  height : ℚ
deriving DecidableEq, Repr

/-- `createAABB(position, size)`. -/
def createAABB (position : Vector2) (size : Vector2) : AABB :=
  { x := position.x, y := position.y, width := size.x, height := size.y }

/-- `pointInAABB(point, aabb)`: inclusive comparisons on all four
center±half-extent boundaries. -/
def pointInAABB (point : Vector2) (aabb : AABB) : Bool :=
  let left := aabb.x - aabb.width / 2
  let right := aabb.x + aabb.width / 2
  let top := aabb.y - aabb.height / 2
  let bottom := aabb.y + aabb.height / 2
  decide (point.x ≥ left) && decide (point.x ≤ right) &&
    decide (point.y ≥ top) && decide (point.y ≤ bottom)

structure GameObject where
  id : String
  type : ObjType
  position : Vector2
  velocity : Vector2
  size : Vector2
  hitbox : AABB
  spawnTime : ℚ
  isActive : Bool
  cardType : Option String
deriving DecidableEq, Repr

/-- The fixed tap-resolution priority table of `findTappedObjects`:
gift 4 > logo 3 > glitch 2 > bomb 1. -/
def tapPriority : ObjType → ℤ
  | ObjType.gift => 4
  | ObjType.logo => 3
  | ObjType.glitch => 2
  | ObjType.bomb => 1

/-- Stable insertion into a list sorted by descending `tapPriority`
(ties keep original order), modelling the stable JS `Array.sort` with
comparator `priority[b] - priority[a]`. -/
def insertByPriority (o : GameObject) : List GameObject → List GameObject
  | [] => [o]
  | x :: xs =>
      if tapPriority x.type ≤ tapPriority o.type then o :: x :: xs
      else x :: insertByPriority o xs

/-- Stable sort by descending `tapPriority`. -/
def sortByPriority (l : List GameObject) : List GameObject :=
  l.foldr insertByPriority []

/-- `findTappedObjects(objects, tapPosition)`: filter the active objects
whose hitbox contains the point; if any, sort by descending priority and
return a singleton list holding the first. -/
def findTappedObjects (objects : List GameObject) (tapPosition : Vector2) :
    List GameObject :=
  let tappedObjects := objects.filter
    (fun obj => obj.isActive && pointInAABB tapPosition obj.hitbox)
  match sortByPriority tappedObjects with
  | [] => []
  | o :: _ => [o]

structure SpawnConfig where
  screenWidth : ℚ
  screenHeight : ℚ
  objectSize : Vector2
  fallSpeed : ℚ
  spawnRate : ℚ
deriving DecidableEq, Repr

/-- The mutable fields of `SpawnManager`, as an explicit state record;
the `GameRNG` it owns is the xorshift state. -/
structure SpawnManagerState where
  rng : ℕ
  config : SpawnConfig
  lastSpawnTime : ℚ
  nextSpawnDelay : ℚ
deriving DecidableEq, Repr

structure SpawnModifiers where
  spawnRate : ℚ
  timeFrozen : Bool
deriving DecidableEq, Repr

/-- Iteration count of a JS `for (let i = 0; i < count; i++)` loop for a
numeric bound `count`. -/
def jsLoopCount (count : ℚ) : ℕ :=
  (⌈count⌉ : ℤ).toNat

/-- One iteration of `SpawnManager.spawnObjects`: draw object type, spawn
X and fall speed (and the card type for gifts) from the session RNG in
the fixed call order, then configure a pooled object.  The pool's
`getObject` sets exactly these fields on the object it hands out, so its
value is that of a fresh object; the impure id (`Date.now()` +
`Math.random()`) is abstracted as `mkId i`. -/
def spawnOne (cfg : SpawnConfig) (mkId : ℕ → String) (now : ℚ) (i : ℕ)
    (rng0 : ℕ) : GameObject × ℕ :=
  let tyr := rngObjectType rng0
  let sxr := rngSpawnX cfg.screenWidth cfg.objectSize.x tyr.2
  let fsr := rngFallSpeed cfg.fallSpeed sxr.2
  let position : Vector2 := { x := sxr.1, y := -(cfg.objectSize.y) / 2 }
  let cardr : Option String × ℕ :=
    if tyr.1 = ObjType.gift then
      let cr := rngMagicCard fsr.2
      (some cr.1, cr.2)
    else (none, fsr.2)
  ({ id := mkId i
     type := tyr.1
     position := position
     velocity := { x := 0, y := fsr.1 }
     size := cfg.objectSize
     hitbox := createAABB position cfg.objectSize
     spawnTime := now
     isActive := true
     cardType := cardr.1 }, cardr.2)

/-- The spawn loop of `spawnObjects`, threading the RNG. -/
def spawnLoop (cfg : SpawnConfig) (mkId : ℕ → String) (now : ℚ) :
    ℕ → ℕ → ℕ → List GameObject × ℕ
  | 0, _, rng => ([], rng)
  | n + 1, i, rng =>
      let or1 := spawnOne cfg mkId now i rng
      let rest := spawnLoop cfg mkId now n (i + 1) or1.2
      (or1.1 :: rest.1, rest.2)

/-- `SpawnManager.spawnObjects(spawnRateMultiplier)`:
`spawnCount = spawnRateMultiplier > 2 ? rng.nextInt(2, 4) : 1`, then the
loop draws and configures `spawnCount` objects. -/
def spawnObjects (cfg : SpawnConfig) (spawnRateMultiplier : ℚ)
    (mkId : ℕ → String) (now : ℚ) (rng0 : ℕ) : List GameObject × ℕ :=
  let draw :=
    if spawnRateMultiplier > 2 then rngNextInt 2 4 rng0
    else ((1 : ℚ), rng0)
  spawnLoop cfg mkId now (jsLoopCount draw.1) 0 draw.2

/-- `SpawnManager.calculateNextSpawn`: `baseDelay = 1000 / spawnRate`,
next delay drawn by `rng.spawnDelay(baseDelay)`. -/
def calculateNextSpawn (cfg : SpawnConfig) (rng : ℕ) : ℚ × ℕ :=
  rngSpawnDelay (1000 / cfg.spawnRate) rng

/-- `SpawnManager.update(currentTime, modifiers)`: no spawn while
`timeFrozen`; otherwise spawn a batch when the elapsed time since the
last spawn reaches the pending delay, then redraw the delay. -/
def spawnUpdate (sm : SpawnManagerState) (currentTime : ℚ)
    (modifiers : SpawnModifiers) (mkId : ℕ → String) (now : ℚ) :
    List GameObject × SpawnManagerState :=
  if modifiers.timeFrozen then ([], sm)
  else if currentTime - sm.lastSpawnTime ≥ sm.nextSpawnDelay then
    let objs := spawnObjects sm.config modifiers.spawnRate mkId now sm.rng
    let delay := calculateNextSpawn sm.config objs.2
    (objs.1,
     { sm with rng := delay.2, lastSpawnTime := currentTime,
               nextSpawnDelay := delay.1 })
  else ([], sm)

/-! ## State hashes: GameStateManager.calculateStateHash
(src/src/lib/game-state.ts) and generateStateHash
(src/src/lib/anti-cheat.ts) -/

/-- Render a JS number for `JSON.stringify`.  Integers print as decimal
integers (exactly as JS does in the safe range).  Non-integer values
with a finite decimal expansion print as the zero-stripped decimal
string, matching JS shortest-round-trip printing on the decimal values
this code produces; other rationals (which no code path here produces)
fall back to `num/den`. -/
def jsNumToStringPos (q : ℚ) : String :=
  let scaled := q * 10 ^ 20
  if scaled.den = 1 then
    let n := scaled.num.toNat
    let ip := n / 10 ^ 20
    let fp := n % 10 ^ 20
    let fracDigits : List Char :=
      (List.replicate (20 - (Nat.toDigits 10 fp).length) (Char.ofNat 48)) ++
        Nat.toDigits 10 fp
    let stripped := (fracDigits.reverse.dropWhile (fun c => c = Char.ofNat 48)).reverse
    toString ip ++ "." ++ String.mk stripped
  else
    toString q.num ++ "/" ++ toString q.den

def jsNumToString (q : ℚ) : String :=
  if q.den = 1 then toString q.num
  else if q < 0 then "-" ++ jsNumToStringPos (-q)
  else jsNumToStringPos q

/-- One step of the JS polynomial string hash
`hash = ((hash << 5) - hash) + char; hash = hash & hash`
(`<<` and the final `&` act on the signed 32-bit pattern). -/
def jsHashStep (h : ℤ) (c : ℕ) : ℤ :=
  toInt32 (toInt32 (toInt32 h * 32) - h + (c : ℤ))

def jsHashString (s : String) : ℤ :=
  s.data.foldl (fun h c => jsHashStep h c.toNat) 0

/-- Lowercase hex rendering of a natural number (JS `n.toString(16)`
for nonnegative `n`). -/
def natToHex (n : ℕ) : String :=
  String.mk (Nat.toDigits 16 n)

/-- JS `Number.prototype.toString(16)` for a 32-bit signed integer:
negative values print as `-` followed by the hex of the magnitude. -/
def int32ToHexString (h : ℤ) : String :=
  if h < 0 then "-" ++ natToHex (-h).toNat else natToHex h.toNat

/-- The JSON string `calculateStateHash` feeds the hash:
`{score, lives, timeLeft: floor(timeLeft), combo: floor(combo*10), streak}`
in insertion order. -/
def clientHashJson (s : GameState) : String :=
  "\x7b\"score\":" ++ jsNumToString s.score ++
  ",\"lives\":" ++ jsNumToString s.lives ++
  ",\"timeLeft\":" ++ toString (⌊s.timeLeft⌋ : ℤ) ++
  ",\"combo\":" ++ toString (⌊s.combo * 10⌋ : ℤ) ++
  ",\"streak\":" ++ jsNumToString s.streak ++ "\x7d"

/-- `GameStateManager.calculateStateHash(gameState)`. -/
def calculateStateHash (s : GameState) : String :=
  int32ToHexString (jsHashString (clientHashJson s))

/-- JS `Math.round`: half-up rounding (ties toward +∞). -/
def jsRound (q : ℚ) : ℚ :=
  (⌊q + 1/2⌋ : ℤ)

/-! SHA-256 (the `crypto.createHash('sha256')` used by
`generateStateHash`), implemented from the FIPS 180-4 standard over
byte lists. -/

def w32 (n : ℕ) : ℕ := n % 4294967296

def rotr32 (k n : ℕ) : ℕ := w32 ((n >>> k) ||| (n <<< (32 - k)))

def sha256s0 (x : ℕ) : ℕ := rotr32 7 x ^^^ rotr32 18 x ^^^ (x >>> 3)

def sha256s1 (x : ℕ) : ℕ := rotr32 17 x ^^^ rotr32 19 x ^^^ (x >>> 10)

def sha256S0 (x : ℕ) : ℕ := rotr32 2 x ^^^ rotr32 13 x ^^^ rotr32 22 x

def sha256S1 (x : ℕ) : ℕ := rotr32 6 x ^^^ rotr32 11 x ^^^ rotr32 25 x

def sha256Ch (x y z : ℕ) : ℕ := (x &&& y) ^^^ ((x ^^^ 4294967295) &&& z)

def sha256Maj (x y z : ℕ) : ℕ := (x &&& y) ^^^ (x &&& z) ^^^ (y &&& z)

def sha256K : List ℕ :=
  [1116352408, 1899447441, 3049323471, 3921009573, 961987163, 1508970993,
   2453635748, 2870763221, 3624381080, 310598401, 607225278, 1426881987,
   1925078388, 2162078206, 2614888103, 3248222580, 3835390401, 4022224774,
   264347078, 604807628, 770255983, 1249150122, 1555081692, 1996064986,
   2554220882, 2821834349, 2952996808, 3210313671, 3336571891, 3584528711,
   113926993, 338241895, 666307205, 773529912, 1294757372, 1396182291,
   1695183700, 1986661051, 2177026350, 2456956037, 2730485921, 2820302411,
   3259730800, 3345764771, 3516065817, 3600352804, 4094571909, 275423344,
   430227734, 506948616, 659060556, 883997877, 958139571, 1322822218,
   1537002063, 1747873779, 1955562222, 2024104815, 2227730452, 2361852424,
   2428436474, 2756734187, 3204031479, 3329325298]

def sha256H0 : List ℕ :=
  [1779033703, 3144134277, 1013904242, 2773480762,
   1359893119, 2600822924, 528734635, 1541459225]

/-- Big-endian 64-bit length field of the padding. -/
def sha256LenBytes (bitLen : ℕ) : List ℕ :=
  [w32 0 + bitLen / 2 ^ 56 % 256, bitLen / 2 ^ 48 % 256, bitLen / 2 ^ 40 % 256,
   bitLen / 2 ^ 32 % 256, bitLen / 2 ^ 24 % 256, bitLen / 2 ^ 16 % 256,
   bitLen / 2 ^ 8 % 256, bitLen % 256]

/-- FIPS 180-4 padding: append `0x80`, zero bytes to 56 mod 64, then
the 64-bit big-endian bit length. -/
def sha256Pad (msg : List ℕ) : List ℕ :=
  let L := msg.length
  let zeros := (64 + 56 - (L + 1) % 64) % 64
  msg ++ [128] ++ List.replicate zeros 0 ++ sha256LenBytes (8 * L)

/-- Group bytes into big-endian 32-bit words. -/
def bytesToWords : List ℕ → List ℕ
  | b0 :: b1 :: b2 :: b3 :: rest =>
      ((b0 <<< 24) ||| (b1 <<< 16) ||| (b2 <<< 8) ||| b3) :: bytesToWords rest
  | _ => []

/-- Split a word list into 16-word blocks. -/
def chunks16 : List ℕ → List (List ℕ)
  | [] => []
  | w :: ws => ((w :: ws).take 16) :: chunks16 ((w :: ws).drop 16)
termination_by l => l.length
decreasing_by simp [List.length_drop]; omega

/-- Extend a 16-word block to the 64-word message schedule. -/
def sha256Extend (block : List ℕ) : Array ℕ :=
  (List.range 48).foldl
    (fun w j =>
      let i := j + 16
      w.push (w32 (sha256s1 (w.getD (i - 2) 0) + w.getD (i - 7) 0 +
                   sha256s0 (w.getD (i - 15) 0) + w.getD (i - 16) 0)))
    block.toArray

structure Sha256Regs where
  a : ℕ
  b : ℕ
  c : ℕ
  d : ℕ
  e : ℕ
  f : ℕ
  g : ℕ
  hh : ℕ

def sha256Round (s : Sha256Regs) (kw : ℕ × ℕ) : Sha256Regs :=
  let t1 := w32 (s.hh + sha256S1 s.e + sha256Ch s.e s.f s.g + kw.1 + kw.2)
  let t2 := w32 (sha256S0 s.a + sha256Maj s.a s.b s.c)
  { a := w32 (t1 + t2), b := s.a, c := s.b, d := s.c,
    e := w32 (s.d + t1), f := s.e, g := s.f, hh := s.g }

/-- Compress one 16-word block into the running 8-word state. -/
def sha256Compress (h : List ℕ) (block : List ℕ) : List ℕ :=
  let ws := (sha256Extend block).toList
  let init : Sha256Regs :=
    { a := h.getD 0 0, b := h.getD 1 0, c := h.getD 2 0, d := h.getD 3 0,
      e := h.getD 4 0, f := h.getD 5 0, g := h.getD 6 0, hh := h.getD 7 0 }
  let fin := (sha256K.zip ws).foldl sha256Round init
  List.zipWith (fun x y => w32 (x + y)) h
    [fin.a, fin.b, fin.c, fin.d, fin.e, fin.f, fin.g, fin.hh]

/-- SHA-256 digest of a byte list, as the 8 big-endian words. -/
def sha256Words (msg : List ℕ) : List ℕ :=
  (chunks16 (bytesToWords (sha256Pad msg))).foldl sha256Compress sha256H0

/-- Lowercase hex of a 32-bit word, zero-padded to 8 digits. -/
def wordToHex8 (n : ℕ) : String :=
  let ds := Nat.toDigits 16 n
  String.mk (List.replicate (8 - ds.length) (Char.ofNat 48) ++ ds)

/-- Hex digest of a byte string (`crypto...digest('hex')`). -/
def sha256Hex (msg : List ℕ) : String :=
  String.join ((sha256Words msg).map wordToHex8)

/-- The JSON string `generateStateHash` feeds SHA-256:
`{score: round(score), lives, combo: round(combo*100)/100, streak,
actionCount}` in insertion order. -/
def serverHashJson (s : GameState) (actionCount : ℚ) : String :=
  "\x7b\"score\":" ++ jsNumToString (jsRound s.score) ++
  ",\"lives\":" ++ jsNumToString s.lives ++
  ",\"combo\":" ++ jsNumToString (jsRound (s.combo * 100) / 100) ++
  ",\"streak\":" ++ jsNumToString s.streak ++
  ",\"actionCount\":" ++ jsNumToString actionCount ++ "\x7d"

/-- `generateStateHash(gameState, actionCount)` from anti-cheat.ts:
SHA-256 of the JSON state data, truncated to the first 16 hex chars.
The JSON is ASCII, so its UTF-8 bytes are the char codes. -/
def generateStateHash (s : GameState) (actionCount : ℚ) : String :=
  (sha256Hex ((serverHashJson s actionCount).data.map Char.toNat)).take 16

/-! ## src/unnamed/part_013 — POST /api/session/finish replay fold -/

/-- One step of the server-side replay:
`tapResult = processTap(gameState, tap.result)` (no gift card type, so a
gift defaults to `time-freeze`), then `applyTapResult`. -/
def replayStep (now : ℚ) (state : GameState) (tapType : TapType) : GameState :=
  applyTapResult state (processTap state tapType none now)

/-- The replay fold over the submitted tap-type sequence; `nows i` is
the wall clock observed while processing the `i`-th tap. -/
def replayFold (nows : ℕ → ℚ) : ℕ → GameState → List TapType → GameState
  | _, state, [] => state
  | i, state, t :: ts => replayFold nows (i + 1) (replayStep (nows i) state t) ts

/-- The whole server re-simulation of `POST /api/session/finish`: build
the session RNG from `(sessionId, startTime)` (created but never drawn
from during the fold), start from `createInitialGameState` and fold
every tap in order. -/
def serverReplay (sessionId : String) (startTime : ℤ) (taps : List TapType)
    (initNow : ℚ) (nows : ℕ → ℚ) : GameState :=
  let _rng := createSessionRNGState sessionId startTime
  replayFold nows 0 (createInitialGameState initNow) taps

/-! ## Reachability: states produced from the initial state by the
tap pipeline (`processTap` + `applyTapResult`) and the per-frame
`updateGameState`. -/

inductive Reachable : GameState → Prop where
  | init (now : ℚ) : Reachable (createInitialGameState now)
  | tap {s : GameState} (t : TapType) (c : Option String) (now : ℚ) :
      Reachable s → Reachable (applyTapResult s (processTap s t c now))
  | tick {s : GameState} (deltaTime now : ℚ) :
      Reachable s → Reachable (updateGameState s deltaTime now)

/-! ## Helper lemmas -/

/-- Every branch of `applyTapResult` installs the result's combo. -/
theorem applyTapResult_combo (s : GameState) (r : TapResult) :
    (applyTapResult s r).combo = r.newCombo := by
  unfold applyTapResult
  cases r.effect with
  | none => rfl
  | some e =>
      dsimp only
      split_ifs <;> rfl

/-- Every branch of `applyTapResult` installs the result's streak. -/
theorem applyTapResult_streak (s : GameState) (r : TapResult) :
    (applyTapResult s r).streak = r.newStreak := by
  unfold applyTapResult
  cases r.effect with
  | none => rfl
  | some e =>
      dsimp only
      split_ifs <;> rfl

/-- Every branch of `applyTapResult` sets lives to
`max 0 (lives - livesLost)`. -/
theorem applyTapResult_lives (s : GameState) (r : TapResult) :
    (applyTapResult s r).lives = max 0 (s.lives - r.livesLost) := by
  unfold applyTapResult
  cases r.effect with
  | none => rfl
  | some e =>
      dsimp only
      split_ifs <;> rfl

/-! ## Claim theorems -/

/-- C4: for every game state, a glitch tap and a miss tap produce the
result `{points 0, combo 1.0, streak 0, livesLost 0}`, a bomb tap
produces `{points 0, combo 1.0, streak 0, livesLost 1}`, and the two
remaining tap types (logo, gift) lose no life — so only bomb ever
costs a life. -/
theorem processTap_reset_policy (s : GameState) (c : Option String) (now : ℚ) :
    (processTap s TapType.glitch c now =
      { type := TapType.glitch, points := 0, newCombo := 1, newStreak := 0,
        livesLost := 0, effect := none })
  ∧ (processTap s TapType.miss c now =
      { type := TapType.miss, points := 0, newCombo := 1, newStreak := 0,
        livesLost := 0, effect := none })
  ∧ (processTap s TapType.bomb c now =
      { type := TapType.bomb, points := 0, newCombo := 1, newStreak := 0,
        livesLost := 1, effect := none })
  ∧ (processTap s TapType.logo c now).livesLost = 0
  ∧ (processTap s TapType.gift c now).livesLost = 0 :=
  ⟨rfl, rfl, rfl, rfl, rfl⟩

/-- C5: from the initial state, five consecutive logo taps leave
streak = 5 and combo = 1.5; the sixth logo tap scores 10 · 1.5 = 15
points; a bomb tap right after resets the combo to 1.0 and takes
exactly one life (5 → 4). -/
theorem end_to_end_six_logos_then_bomb :
    (replayFold (fun _ => 0) 0 (createInitialGameState 0)
        [TapType.logo, TapType.logo, TapType.logo, TapType.logo,
         TapType.logo]).streak = 5
  ∧ (replayFold (fun _ => 0) 0 (createInitialGameState 0)
        [TapType.logo, TapType.logo, TapType.logo, TapType.logo,
         TapType.logo]).combo = 3/2
  ∧ (processTap (replayFold (fun _ => 0) 0 (createInitialGameState 0)
        [TapType.logo, TapType.logo, TapType.logo, TapType.logo,
         TapType.logo]) TapType.logo none 0).points = 15
  ∧ (replayFold (fun _ => 0) 0 (createInitialGameState 0)
        [TapType.logo, TapType.logo, TapType.logo, TapType.logo,
         TapType.logo, TapType.logo]).score
      - (replayFold (fun _ => 0) 0 (createInitialGameState 0)
        [TapType.logo, TapType.logo, TapType.logo, TapType.logo,
         TapType.logo]).score = 15
  ∧ (replayFold (fun _ => 0) 0 (createInitialGameState 0)
        [TapType.logo, TapType.logo, TapType.logo, TapType.logo,
         TapType.logo, TapType.logo]).lives = 5
  ∧ (replayFold (fun _ => 0) 0 (createInitialGameState 0)
        [TapType.logo, TapType.logo, TapType.logo, TapType.logo,
         TapType.logo, TapType.logo, TapType.bomb]).combo = 1
  ∧ (replayFold (fun _ => 0) 0 (createInitialGameState 0)
        [TapType.logo, TapType.logo, TapType.logo, TapType.logo,
         TapType.logo, TapType.logo, TapType.bomb]).lives = 4 := by
  norm_num [replayFold, replayStep, applyTapResult, processTap,
    createInitialGameState, updateCombo, calculatePoints]

/-- C6: every game state reachable from the initial state via
`processTap`/`applyTapResult` and `updateGameState` has
`combo = min(1.0 + floor(streak/5)*0.5, 5.0)` — the combo multiplier is
always exactly the value derived from the current streak, capped at 5.0,
and no operation sets it independently. -/
theorem combo_derived_from_streak {s : GameState} (h : Reachable s) :
    s.combo = min (1 + (⌊s.streak / 5⌋ : ℚ) * (1/2)) 5 := by
  induction h with
  | init now =>
      norm_num [createInitialGameState]
  | tap t c now _ ih =>
      rw [applyTapResult_combo, applyTapResult_streak]
      cases t
      case logo => simp [processTap, updateCombo]
      case glitch => norm_num [processTap]
      case gift => simpa [processTap] using ih
      case bomb => norm_num [processTap]
      case miss => norm_num [processTap]
  | tick deltaTime now _ ih =>
      simpa [updateGameState] using ih

/-- Witness for C6 at the initial state. -/
theorem combo_derived_from_streak_witness :
    (createInitialGameState 0).combo =
      min (1 + (⌊(createInitialGameState 0).streak / 5⌋ : ℚ) * (1/2)) 5 :=
  combo_derived_from_streak (Reachable.init 0)

/-- C7 counterexample: from a state with score 30 (score ≥ 0, lives ≥
0), applying the result of a gift tap that reveals `bomb-trap` yields
score 10, while the claimed equation `score = max(0, score + points)`
demands 30 — the bomb-trap payload is applied on top of the claimed
clamp, so the claimed equality fails. -/
theorem applyTapResult_score_eq_counterexample :
    (0:ℚ) ≤ ({ createInitialGameState 0 with score := 30 } : GameState).score
  ∧ (0:ℚ) ≤ ({ createInitialGameState 0 with score := 30 } : GameState).lives
  ∧ (applyTapResult { createInitialGameState 0 with score := 30 }
        (processTap { createInitialGameState 0 with score := 30 }
          TapType.gift (some "bomb-trap") 0)).score = 10
  ∧ max 0 (({ createInitialGameState 0 with score := 30 } : GameState).score
        + (processTap { createInitialGameState 0 with score := 30 }
            TapType.gift (some "bomb-trap") 0).points) = 30
  ∧ (10 : ℚ) ≠ 30 := by
  refine ⟨by norm_num [createInitialGameState], by norm_num [createInitialGameState],
    ?_, ?_, by norm_num⟩ <;>
    simp +decide [processTap, applyTapResult, createMagicCardEffect,
      createInitialGameState] <;>
    norm_num

/-- C7 amended: for every state with score ≥ 0 and lives ≥ 0 and every
tap result, `applyTapResult` returns lives = max(0, lives − livesLost)
and a nonnegative score; the score equals max(0, score + points) for
every result not carrying a bomb-trap effect, and for a bomb-trap
result it equals max(0, max(0, score + points) + value). -/
theorem applyTapResult_clamps (s : GameState) (r : TapResult)
    (hs : 0 ≤ s.score) (hl : 0 ≤ s.lives) :
    (applyTapResult s r).lives = max 0 (s.lives - r.livesLost)
  ∧ 0 ≤ (applyTapResult s r).score
  ∧ 0 ≤ (applyTapResult s r).lives
  ∧ ((∀ e, r.effect = some e → ¬ e.type = "bomb-trap") →
      (applyTapResult s r).score = max 0 (s.score + r.points))
  ∧ (∀ e, r.effect = some e → e.type = "bomb-trap" →
      (applyTapResult s r).score
        = max 0 (max 0 (s.score + r.points) + e.value.getD 0)) := by
  refine ⟨applyTapResult_lives s r, ?_, ?_, ?_, ?_⟩
  · unfold applyTapResult
    cases r.effect with
    | none => exact le_max_left 0 _
    | some e =>
        dsimp only
        split_ifs <;> exact le_max_left 0 _
  · rw [applyTapResult_lives]
    exact le_max_left 0 _
  · intro hne
    rcases hre : r.effect with _ | e
    · unfold applyTapResult
      rw [hre]
    · have hbt : ¬ e.type = "bomb-trap" := hne e hre
      unfold applyTapResult
      rw [hre]
      dsimp only
      split_ifs <;> first | rfl | exact absurd (by assumption) hbt
  · intro e he hbt
    unfold applyTapResult
    rw [he]
    dsimp only
    split_ifs with h1
    · rw [h1] at hbt
      exact absurd hbt (by decide)
    · rfl

/-- Witness for C7's amended theorem at a bomb result from the initial
state. -/
theorem applyTapResult_clamps_witness :
    (0:ℚ) ≤ (createInitialGameState 0).score
  ∧ (0:ℚ) ≤ (createInitialGameState 0).lives
  ∧ (applyTapResult (createInitialGameState 0)
      (processTap (createInitialGameState 0) TapType.bomb none 0)).lives
      = max 0 ((createInitialGameState 0).lives
          - (processTap (createInitialGameState 0) TapType.bomb none 0).livesLost) :=
  ⟨by norm_num [createInitialGameState], by norm_num [createInitialGameState],
   (applyTapResult_clamps (createInitialGameState 0)
     (processTap (createInitialGameState 0) TapType.bomb none 0)
     (by norm_num [createInitialGameState])
     (by norm_num [createInitialGameState])).1⟩

/-- The golden-monad effect value, as revealed by a gift tap. -/
def goldenEffect : ActiveEffect :=
  { type := "golden-monad", duration := 0, value := none, startTime := 0 }

/-- A state with a golden-monad effect manually present, for probing the
consumption logic. -/
def goldenTestState : GameState :=
  { createInitialGameState 0 with activeEffects := [goldenEffect] }

/-- C3 (code bug): after a gift tap reveals golden-monad, the effect is
NOT in the active-effect list (`applyTapResult` only pushes effects with
duration > 0, and golden-monad has duration 0), so the next logo tap
scores 10, not 30; moreover, even when golden-monad is present in the
list, a logo tap triples the points but no code path removes the effect,
so a second logo tap is tripled again — it does not fire exactly once. -/
theorem goldenMonad_not_wired :
    ((applyTapResult (createInitialGameState 0)
        (processTap (createInitialGameState 0) TapType.gift
          (some "golden-monad") 0)).activeEffects = [])
  ∧ ((processTap (applyTapResult (createInitialGameState 0)
        (processTap (createInitialGameState 0) TapType.gift
          (some "golden-monad") 0)) TapType.logo none 0).points = 10)
  ∧ (processTap goldenTestState TapType.logo none 0).points = 30
  ∧ (applyTapResult goldenTestState
        (processTap goldenTestState TapType.logo none 0)).activeEffects
      = [goldenEffect]
  ∧ (processTap (applyTapResult goldenTestState
        (processTap goldenTestState TapType.logo none 0))
        TapType.logo none 0).points = 30 := by
  refine ⟨?_, ?_, ?_, ?_, ?_⟩ <;>
    simp +decide [processTap, applyTapResult, createMagicCardEffect,
      createInitialGameState, goldenTestState, goldenEffect, calculatePoints,
      updateCombo] <;>
    norm_num

/-- C10: `pointInAABB` uses inclusive comparisons on all four
boundaries, so for any box (of nonnegative extent, as every object
hitbox is) a point lying exactly on a vertical edge (x = center ±
width/2, y within the vertical bounds) or on a horizontal edge
(y = center ± height/2, x within the horizontal bounds) is inside: a
tap exactly on the boundary hits the object. -/
theorem pointInAABB_inclusive_boundary (box : AABB) (p : Vector2)
    (hw : 0 ≤ box.width) (hh : 0 ≤ box.height)
    (h : ((p.x = box.x - box.width / 2 ∨ p.x = box.x + box.width / 2) ∧
            box.y - box.height / 2 ≤ p.y ∧ p.y ≤ box.y + box.height / 2) ∨
         ((p.y = box.y - box.height / 2 ∨ p.y = box.y + box.height / 2) ∧
            box.x - box.width / 2 ≤ p.x ∧ p.x ≤ box.x + box.width / 2)) :
    pointInAABB p box = true := by
  unfold pointInAABB
  simp only [Bool.and_eq_true, decide_eq_true_eq, ge_iff_le]
  rcases h with ⟨hx, hy1, hy2⟩ | ⟨hy, hx1, hx2⟩
  · rcases hx with hx | hx <;>
      exact ⟨⟨⟨by linarith, by linarith⟩, by linarith⟩, by linarith⟩
  · rcases hy with hy | hy <;>
      exact ⟨⟨⟨by linarith, by linarith⟩, by linarith⟩, by linarith⟩

/-- Witness for C10: the point (1, 0) on the right edge of the box
centered at the origin with width 2 and height 2 is a hit. -/
theorem pointInAABB_inclusive_boundary_witness :
    (0:ℚ) ≤ 2 ∧
    pointInAABB { x := 1, y := 0 } { x := 0, y := 0, width := 2, height := 2 } = true :=
  ⟨by norm_num,
   pointInAABB_inclusive_boundary { x := 0, y := 0, width := 2, height := 2 }
     { x := 1, y := 0 } (by norm_num) (by norm_num)
     (Or.inl ⟨Or.inr (by norm_num), by norm_num, by norm_num⟩)⟩

/-- The stable descending-priority sort of a nonempty list starts with
an element of the list whose priority dominates every element. -/
theorem sortByPriority_head_max (l : List GameObject) (hl : l ≠ []) :
    ∃ m rest, sortByPriority l = m :: rest ∧ m ∈ l ∧
      ∀ y ∈ l, tapPriority y.type ≤ tapPriority m.type := by
  induction l with
  | nil => exact absurd rfl hl
  | cons x xs ih =>
      by_cases hxs : xs = []
      · subst hxs
        refine ⟨x, [], rfl, List.mem_cons_self x [], ?_⟩
        intro y hy
        have : y = x := by simpa using hy
        subst this
        exact le_refl _
      · obtain ⟨m, rest, hsort, hmem, hmax⟩ := ih hxs
        have hstep : sortByPriority (x :: xs) = insertByPriority x (sortByPriority xs) := rfl
        rw [hstep, hsort]
        unfold insertByPriority
        split_ifs with hle
        · refine ⟨x, m :: rest, rfl, List.mem_cons_self x xs, ?_⟩
          intro y hy
          rcases List.mem_cons.mp hy with rfl | hy
          · exact le_refl _
          · exact le_trans (hmax y hy) hle
        · refine ⟨m, insertByPriority x rest, rfl, List.mem_cons_of_mem x hmem, ?_⟩
          intro y hy
          rcases List.mem_cons.mp hy with rfl | hy
          · exact le_of_lt (not_le.mp hle)
          · exact hmax y hy

/-- C8: `findTappedObjects` returns the empty list exactly when no
active object's hitbox contains the tap point (a miss); otherwise it
returns exactly one object, drawn unmodified from the input list, whose
type has maximal priority under gift > logo > glitch > bomb among the
containing objects; the result never holds more than one object. -/
theorem findTappedObjects_resolution (objects : List GameObject) (p : Vector2) :
    (findTappedObjects objects p = [] ↔
      ∀ o ∈ objects, ¬(o.isActive = true ∧ pointInAABB p o.hitbox = true))
  ∧ (∀ o ∈ objects, o.isActive = true → pointInAABB p o.hitbox = true →
      ∃ w, findTappedObjects objects p = [w] ∧ w ∈ objects ∧
        w.isActive = true ∧ pointInAABB p w.hitbox = true ∧
        ∀ o' ∈ objects, o'.isActive = true → pointInAABB p o'.hitbox = true →
          tapPriority o'.type ≤ tapPriority w.type)
  ∧ (findTappedObjects objects p).length ≤ 1 := by
  refine ⟨⟨?_, ?_⟩, ?_, ?_⟩
  · intro hres o ho hprop
    have hmemf : o ∈ objects.filter
        (fun ob => ob.isActive && pointInAABB p ob.hitbox) :=
      List.mem_filter.mpr ⟨ho, by rw [Bool.and_eq_true]; exact ⟨hprop.1, hprop.2⟩⟩
    obtain ⟨m, rest, hsort, _, _⟩ :=
      sortByPriority_head_max _ (List.ne_nil_of_mem hmemf)
    simp only [findTappedObjects] at hres
    rw [hsort] at hres
    exact List.noConfusion hres
  · intro hnone
    have hfilter : objects.filter
        (fun ob => ob.isActive && pointInAABB p ob.hitbox) = [] := by
      refine List.eq_nil_iff_forall_not_mem.mpr ?_
      intro a haf
      obtain ⟨ha, hpa⟩ := List.mem_filter.mp haf
      rw [Bool.and_eq_true] at hpa
      exact hnone a ha ⟨hpa.1, hpa.2⟩
    simp only [findTappedObjects]
    rw [hfilter]
    rfl
  · intro o ho hact hpt
    have hmemf : o ∈ objects.filter
        (fun ob => ob.isActive && pointInAABB p ob.hitbox) :=
      List.mem_filter.mpr ⟨ho, by rw [Bool.and_eq_true]; exact ⟨hact, hpt⟩⟩
    obtain ⟨m, rest, hsort, hmemm, hmax⟩ :=
      sortByPriority_head_max _ (List.ne_nil_of_mem hmemf)
    obtain ⟨hmo, hmp⟩ := List.mem_filter.mp hmemm
    rw [Bool.and_eq_true] at hmp
    refine ⟨m, ?_, hmo, hmp.1, hmp.2, ?_⟩
    · simp only [findTappedObjects]
      rw [hsort]
    · intro o' ho' ha' hp'
      exact hmax o'
        (List.mem_filter.mpr ⟨ho', by rw [Bool.and_eq_true]; exact ⟨ha', hp'⟩⟩)
  · simp only [findTappedObjects]
    cases hs : sortByPriority (objects.filter
        (fun ob => ob.isActive && pointInAABB p ob.hitbox)) <;> simp

/-- A unit probe object of a given type centered at the origin. -/
def probeObj (ty : ObjType) : GameObject :=
  { id := "", type := ty, position := { x := 0, y := 0 },
    velocity := { x := 0, y := 0 }, size := { x := 2, y := 2 },
    hitbox := { x := 0, y := 0, width := 2, height := 2 },
    spawnTime := 0, isActive := true, cardType := none }

/-- Witness for C8: with overlapping bomb, gift and logo hitboxes at
the origin, the tap resolves to a single highest-priority object. -/
theorem findTappedObjects_resolution_witness :
    ∃ w, findTappedObjects
        [probeObj ObjType.bomb, probeObj ObjType.gift, probeObj ObjType.logo]
        { x := 0, y := 0 } = [w]
      ∧ w ∈ [probeObj ObjType.bomb, probeObj ObjType.gift, probeObj ObjType.logo]
      ∧ w.isActive = true
      ∧ pointInAABB { x := 0, y := 0 } w.hitbox = true
      ∧ ∀ o' ∈ [probeObj ObjType.bomb, probeObj ObjType.gift, probeObj ObjType.logo],
          o'.isActive = true → pointInAABB { x := 0, y := 0 } o'.hitbox = true →
          tapPriority o'.type ≤ tapPriority w.type :=
  (findTappedObjects_resolution _ _).2.1 (probeObj ObjType.gift)
    (by simp) rfl (by norm_num [pointInAABB, probeObj])

/-- An xorshift32 step keeps the state within 32 bits. -/
theorem xorshift32Next_lt {s : ℕ} (hs : s < 4294967296) :
    xorshift32Next s < 4294967296 := by
  have h32 : (4294967296 : ℕ) = 2 ^ 32 := by norm_num
  unfold xorshift32Next
  have h1 : (s <<< 13) % 4294967296 < 4294967296 := Nat.mod_lt _ (by norm_num)
  have hx1 : s ^^^ ((s <<< 13) % 4294967296) < 4294967296 := by
    rw [h32] at hs h1 ⊢
    exact Nat.bitwise_lt hs h1
  have h2 : (s ^^^ ((s <<< 13) % 4294967296)) >>> 17
      ≤ s ^^^ ((s <<< 13) % 4294967296) := by
    rw [Nat.shiftRight_eq_div_pow]
    exact Nat.div_le_self _ _
  have hx2 : (s ^^^ ((s <<< 13) % 4294967296)) ^^^
      ((s ^^^ ((s <<< 13) % 4294967296)) >>> 17) < 4294967296 := by
    rw [h32] at hx1 ⊢
    exact Nat.bitwise_lt hx1 (lt_of_le_of_lt h2 (h32 ▸ hx1))
  have h3 : ((s ^^^ ((s <<< 13) % 4294967296)) ^^^
      ((s ^^^ ((s <<< 13) % 4294967296)) >>> 17)) <<< 5 % 4294967296
      < 4294967296 := Nat.mod_lt _ (by norm_num)
  rw [h32] at hx2 h3 ⊢
  exact Nat.bitwise_lt hx2 h3

/-- The spawn loop creates exactly as many objects as requested. -/
theorem spawnLoop_length (cfg : SpawnConfig) (mkId : ℕ → String) (now : ℚ) :
    ∀ (n i rng : ℕ), ((spawnLoop cfg mkId now n i rng).1).length = n := by
  intro n
  induction n with
  | zero => intro i rng; rfl
  | succ k ih => intro i rng; simp [spawnLoop, ih]

/-- C9: on an update tick, `SpawnManager` spawns nothing while
time-freeze is active; when the elapsed time since the last spawn
reaches the pending delay it spawns exactly 1 object for
spawnRateMultiplier ≤ 2, and between 2 and 4 objects in a single burst
for spawnRateMultiplier > 2 (the monad-swarm regime). -/
theorem spawnManager_spawn_counts (sm : SpawnManagerState) (t : ℚ)
    (mods : SpawnModifiers) (mkId : ℕ → String) (now : ℚ)
    (hrng : sm.rng < 4294967296) :
    (mods.timeFrozen = true → (spawnUpdate sm t mods mkId now).1 = [])
  ∧ (mods.timeFrozen = false → sm.nextSpawnDelay ≤ t - sm.lastSpawnTime →
      mods.spawnRate ≤ 2 → ((spawnUpdate sm t mods mkId now).1).length = 1)
  ∧ (mods.timeFrozen = false → sm.nextSpawnDelay ≤ t - sm.lastSpawnTime →
      2 < mods.spawnRate →
      2 ≤ ((spawnUpdate sm t mods mkId now).1).length ∧
      ((spawnUpdate sm t mods mkId now).1).length ≤ 4) := by
  have hupdate : mods.timeFrozen = false → sm.nextSpawnDelay ≤ t - sm.lastSpawnTime →
      (spawnUpdate sm t mods mkId now).1 =
        (spawnObjects sm.config mods.spawnRate mkId now sm.rng).1 := by
    intro h1 h2
    simp only [spawnUpdate, h1, Bool.false_eq_true, if_false, ge_iff_le]
    rw [if_pos h2]
  refine ⟨?_, ?_, ?_⟩
  · intro h
    simp [spawnUpdate, h]
  · intro h1 h2 h3
    rw [hupdate h1 h2]
    simp only [spawnObjects, if_neg (not_lt.mpr h3), spawnLoop_length]
    norm_num [jsLoopCount]
  · intro h1 h2 h3
    rw [hupdate h1 h2]
    simp only [spawnObjects, if_pos h3, spawnLoop_length]
    have hv : xorshift32Next sm.rng < 4294967296 := xorshift32Next_lt hrng
    have hq : (rngNextInt 2 4 sm.rng).1 =
        (⌊((xorshift32Next sm.rng : ℚ) / 4294967296) * (4 - 2)⌋ : ℚ) + 2 := rfl
    have hf0 : (0:ℚ) ≤ (xorshift32Next sm.rng : ℚ) / 4294967296 := by positivity
    have hf1 : ((xorshift32Next sm.rng : ℚ) / 4294967296) < 1 := by
      rw [div_lt_one (by norm_num)]
      exact_mod_cast hv
    have h0 : (0:ℤ) ≤ ⌊((xorshift32Next sm.rng : ℚ) / 4294967296) * (4 - 2)⌋ :=
      Int.floor_nonneg.mpr (by nlinarith)
    have hlt : ⌊((xorshift32Next sm.rng : ℚ) / 4294967296) * (4 - 2)⌋ < 2 := by
      rw [Int.floor_lt]
      push_cast
      nlinarith
    have hcast : (⌊((xorshift32Next sm.rng : ℚ) / 4294967296) * (4 - 2)⌋ : ℚ) + 2 =
        ((⌊((xorshift32Next sm.rng : ℚ) / 4294967296) * (4 - 2)⌋ + 2 : ℤ) : ℚ) := by
      push_cast
      ring
    rw [hq, jsLoopCount, hcast, Int.ceil_intCast]
    omega

/-- A concrete spawn-manager state for the C9 witness. -/
def probeSpawnManager : SpawnManagerState :=
  { rng := 1
    config := { screenWidth := 800, screenHeight := 600,
                objectSize := { x := 60, y := 60 },
                fallSpeed := 100, spawnRate := 3/2 }
    lastSpawnTime := 0
    nextSpawnDelay := 0 }

/-- Witness for C9: with monad-swarm active (multiplier 3) and the
delay elapsed, the burst holds between 2 and 4 objects. -/
theorem spawnManager_spawn_counts_witness :
    probeSpawnManager.rng < 4294967296 ∧
    (2 ≤ ((spawnUpdate probeSpawnManager 1 { spawnRate := 3, timeFrozen := false }
        (fun _ => "") 0).1).length ∧
      ((spawnUpdate probeSpawnManager 1 { spawnRate := 3, timeFrozen := false }
        (fun _ => "") 0).1).length ≤ 4) :=
  ⟨by norm_num [probeSpawnManager],
   (spawnManager_spawn_counts probeSpawnManager 1
       { spawnRate := 3, timeFrozen := false } (fun _ => "") 0
       (by norm_num [probeSpawnManager])).2.2 rfl
     (by norm_num [probeSpawnManager]) (by norm_num)⟩

/-! ## Replay determinism (C1) -/

/-- Two active effects that agree on everything the simulation reads
(type, duration, value) but may differ in the impure `startTime`. -/
def EffectSim (e1 e2 : ActiveEffect) : Prop :=
  e1.type = e2.type ∧ e1.duration = e2.duration ∧ e1.value = e2.value

/-- Two game states that agree on score, lives, combo and streak, with
pointwise `EffectSim`-related effect lists. -/
def StateSim (s1 s2 : GameState) : Prop :=
  s1.score = s2.score ∧ s1.lives = s2.lives ∧ s1.combo = s2.combo ∧
  s1.streak = s2.streak ∧
  List.Forall₂ EffectSim s1.activeEffects s2.activeEffects

theorem forall2_any_type (c : String) {l1 l2 : List ActiveEffect}
    (h : List.Forall₂ EffectSim l1 l2) :
    l1.any (fun e => e.type = c) = l2.any (fun e => e.type = c) := by
  induction h with
  | nil => rfl
  | cons h12 _ ih => simp [List.any_cons, ih, h12.1]

theorem forall2_filter_type (c : String) {l1 l2 : List ActiveEffect}
    (h : List.Forall₂ EffectSim l1 l2) :
    List.Forall₂ EffectSim (l1.filter (fun e => e.type ≠ c))
      (l2.filter (fun e => e.type ≠ c)) := by
  induction h with
  | nil => exact List.Forall₂.nil
  | cons h12 htl ih =>
      simp only [List.filter_cons]
      rw [h12.1]
      split_ifs with hb
      · exact List.Forall₂.cons h12 ih
      · exact ih

theorem effectSim_createMagicCardEffect (c : String) (now1 now2 : ℚ) :
    EffectSim (createMagicCardEffect c now1) (createMagicCardEffect c now2) := by
  unfold createMagicCardEffect EffectSim
  split_ifs <;> exact ⟨rfl, rfl, rfl⟩

/-- One replay step preserves the simulation relation: the wall clocks
`now1`/`now2` observed by the two runs may differ arbitrarily. -/
theorem replayStep_sim {s1 s2 : GameState} (h : StateSim s1 s2)
    (t : TapType) (now1 now2 : ℚ) :
    StateSim (replayStep now1 s1 t) (replayStep now2 s2 t) := by
  obtain ⟨hsc, hlv, hcb, hst, heff⟩ := h
  have hgold := forall2_any_type "golden-monad" heff
  cases t with
  | logo =>
      refine ⟨?_, ?_, ?_, ?_, ?_⟩ <;>
        simp [replayStep, processTap, applyTapResult, hsc, hlv, hcb, hst, hgold, heff]
  | glitch =>
      refine ⟨?_, ?_, ?_, ?_, ?_⟩ <;>
        simp [replayStep, processTap, applyTapResult, hsc, hlv, hcb, hst, heff]
  | bomb =>
      refine ⟨?_, ?_, ?_, ?_, ?_⟩ <;>
        simp [replayStep, processTap, applyTapResult, hsc, hlv, hcb, hst, heff]
  | miss =>
      refine ⟨?_, ?_, ?_, ?_, ?_⟩ <;>
        simp [replayStep, processTap, applyTapResult, hsc, hlv, hcb, hst, heff]
  | gift =>
      have h5000 : (0:ℚ) < 5000 := by norm_num
      refine ⟨?_, ?_, ?_, ?_, ?_⟩ <;>
        simp +decide [replayStep, processTap, applyTapResult,
          createMagicCardEffect, hsc, hlv, hcb, hst, h5000]
      refine List.rel_append ?_ (List.Forall₂.cons ⟨rfl, rfl, rfl⟩ List.Forall₂.nil)
      simpa using forall2_filter_type "time-freeze" heff

/-- The whole replay fold preserves the simulation relation, whatever
tap indices and wall clocks each run observes. -/
theorem replayFold_sim {s1 s2 : GameState} (h : StateSim s1 s2)
    (taps : List TapType) (nows1 nows2 : ℕ → ℚ) :
    ∀ i j, StateSim (replayFold nows1 i s1 taps) (replayFold nows2 j s2 taps) := by
  induction taps generalizing s1 s2 with
  | nil => intro i j; exact h
  | cons t ts ih =>
      intro i j
      exact ih (replayStep_sim h t (nows1 i) (nows2 j)) (i + 1) (j + 1)

/-- C1: for a fixed `(sessionId, startTime)` and a fixed ordered tap
type sequence, two independent runs of the replay fold —
`createInitialGameState` followed by `processTap`/`applyTapResult` for
each tap in order — produce identical final score, lives, combo and
streak, regardless of the wall-clock values each run observes. -/
theorem replay_equivalence (sessionId : String) (startTime : ℤ)
    (taps : List TapType) (initNow1 initNow2 : ℚ) (nows1 nows2 : ℕ → ℚ) :
    (serverReplay sessionId startTime taps initNow1 nows1).score =
      (serverReplay sessionId startTime taps initNow2 nows2).score
  ∧ (serverReplay sessionId startTime taps initNow1 nows1).lives =
      (serverReplay sessionId startTime taps initNow2 nows2).lives
  ∧ (serverReplay sessionId startTime taps initNow1 nows1).combo =
      (serverReplay sessionId startTime taps initNow2 nows2).combo
  ∧ (serverReplay sessionId startTime taps initNow1 nows1).streak =
      (serverReplay sessionId startTime taps initNow2 nows2).streak := by
  have hsim : StateSim (createInitialGameState initNow1)
      (createInitialGameState initNow2) :=
    ⟨rfl, rfl, rfl, rfl, List.Forall₂.nil⟩
  have h := replayFold_sim hsim taps nows1 nows2 0 0
  exact ⟨h.1, h.2.1, h.2.2.1, h.2.2.2.1⟩

set_option maxRecDepth 4000 in
/-- Concrete evaluation of the client state hash (initial state). -/
theorem calculateStateHash_initial :
    calculateStateHash (createInitialGameState 0) = "-40b630ec" := by
  have hfl : (⌊((createInitialGameState 0) : GameState).combo * 10⌋ : ℤ) = 10 := by
    norm_num [createInitialGameState]
  have htl : (⌊((createInitialGameState 0) : GameState).timeLeft⌋ : ℤ) = 120 := by
    norm_num [createInitialGameState]
  have hjson : clientHashJson (createInitialGameState 0) =
      "\x7b\"score\":0,\"lives\":5,\"timeLeft\":120,\"combo\":10,\"streak\":0\x7d" := by
    unfold clientHashJson
    rw [hfl, htl]
    decide
  have hfm : jsHashString "\x7b\"score\":0,\"lives\":5,\"timeLeft\":120,\"combo\":10,\"streak\":0\x7d" =
      List.foldl jsHashStep 0 (("\x7b\"score\":0,\"lives\":5,\"timeLeft\":120,\"combo\":10,\"streak\":0\x7d").data.map Char.toNat) := by
    rw [jsHashString, List.foldl_map]
  have hdata : ("\x7b\"score\":0,\"lives\":5,\"timeLeft\":120,\"combo\":10,\"streak\":0\x7d").data.map Char.toNat =
      [123, 34, 115, 99, 111, 114, 101, 34, 58, 48, 44, 34, 108, 105, 118, 101, 115, 34, 58, 53, 44, 34, 116, 105, 109, 101, 76, 101, 102, 116, 34, 58, 49, 50, 48, 44, 34, 99, 111, 109, 98, 111, 34, 58, 49, 48, 44, 34, 115, 116, 114, 101, 97, 107, 34, 58, 48, 125] := by decide
  have hhash : jsHashString "\x7b\"score\":0,\"lives\":5,\"timeLeft\":120,\"combo\":10,\"streak\":0\x7d" = -1085681900 := by
    rw [hfm, hdata]
    norm_num [List.foldl, jsHashStep, toInt32]
  unfold calculateStateHash
  rw [hjson, hhash]
  decide

set_option maxRecDepth 4000 in
/-- Concrete evaluation of the client state hash (initial state with timeLeft 119). -/
theorem calculateStateHash_tl119 :
    calculateStateHash { createInitialGameState 0 with timeLeft := 119 } = "172787ea" := by
  have hfl : (⌊({ createInitialGameState 0 with timeLeft := 119 } : GameState).combo * 10⌋ : ℤ) = 10 := by
    norm_num [createInitialGameState]
  have htl : (⌊({ createInitialGameState 0 with timeLeft := 119 } : GameState).timeLeft⌋ : ℤ) = 119 := by
    norm_num [createInitialGameState]
  have hjson : clientHashJson { createInitialGameState 0 with timeLeft := 119 } =
      "\x7b\"score\":0,\"lives\":5,\"timeLeft\":119,\"combo\":10,\"streak\":0\x7d" := by
    unfold clientHashJson
    rw [hfl, htl]
    decide
  have hfm : jsHashString "\x7b\"score\":0,\"lives\":5,\"timeLeft\":119,\"combo\":10,\"streak\":0\x7d" =
      List.foldl jsHashStep 0 (("\x7b\"score\":0,\"lives\":5,\"timeLeft\":119,\"combo\":10,\"streak\":0\x7d").data.map Char.toNat) := by
    rw [jsHashString, List.foldl_map]
  have hdata : ("\x7b\"score\":0,\"lives\":5,\"timeLeft\":119,\"combo\":10,\"streak\":0\x7d").data.map Char.toNat =
      [123, 34, 115, 99, 111, 114, 101, 34, 58, 48, 44, 34, 108, 105, 118, 101, 115, 34, 58, 53, 44, 34, 116, 105, 109, 101, 76, 101, 102, 116, 34, 58, 49, 49, 57, 44, 34, 99, 111, 109, 98, 111, 34, 58, 49, 48, 44, 34, 115, 116, 114, 101, 97, 107, 34, 58, 48, 125] := by decide
  have hhash : jsHashString "\x7b\"score\":0,\"lives\":5,\"timeLeft\":119,\"combo\":10,\"streak\":0\x7d" = 388466666 := by
    rw [hfm, hdata]
    norm_num [List.foldl, jsHashStep, toInt32]
  unfold calculateStateHash
  rw [hjson, hhash]
  decide

/-- C2 counterexample: the claim that the client-side and server-side
state-hash computations agree on every game state and action count is
false — at the initial state and the same state with timeLeft 119 the
server hash (which never reads timeLeft) is unchanged while the client
hash (which hashes floor(timeLeft)) changes, so the two functions
cannot be pointwise equal. -/
theorem stateHash_client_server_mismatch :
    ¬ (∀ (s : GameState) (actionCount : ℚ),
        calculateStateHash s = generateStateHash s actionCount) := by
  intro hall
  have h1 := hall (createInitialGameState 0) 0
  have h2 := hall { createInitialGameState 0 with timeLeft := 119 } 0
  have hserver : generateStateHash (createInitialGameState 0) 0 =
      generateStateHash { createInitialGameState 0 with timeLeft := 119 } 0 := rfl
  rw [calculateStateHash_initial] at h1
  rw [calculateStateHash_tl119] at h2
  exact absurd (h1.trans (hserver.trans h2.symm)) (by decide)

/-- C2 amended: the client-side hash (`calculateStateHash`, a 32-bit
polynomial string hash of {score, lives, floor(timeLeft),
floor(combo*10), streak}) and the server-side hash (`generateStateHash`,
SHA-256 truncated to 16 hex chars of {round(score), lives, rounded
combo, streak, actionCount}) are different functions over different
field sets: the server hash is invariant under timeLeft changes while
the client hash is not. -/
theorem stateHash_functions_differ :
    (∀ (s : GameState) (t : ℚ) (a : ℚ),
        generateStateHash { s with timeLeft := t } a = generateStateHash s a)
  ∧ calculateStateHash (createInitialGameState 0) ≠
      calculateStateHash { createInitialGameState 0 with timeLeft := 119 } := by
  constructor
  · intro s t a
    rfl
  · rw [calculateStateHash_initial, calculateStateHash_tl119]
    decide

end MonadRush
